import Mathlib

/-!
Verification of the unified connector framework core (Jira/Confluence
connector layer) against its natural-language specification.

The definitions below are a shallow embedding of the Python source:

* a JSON-like value type with Python dictionary access and truthiness
  semantics, used by the mapping layer
  (src/connectors/jira/mapping.py, src/connectors/confluence/mapping.py);
* the retry/backoff request loop of the provider clients
  (src/connectors/jira/client.py JiraClient._request / _sleep_delay,
  src/connectors/confluence/client.py ConfluenceClient._request);
* the OAuth2 token refresh logic (JiraAuth.refresh_if_needed,
  ConfluenceAuth.refresh_if_needed, set_token);
* the pagination normalizers (JiraClient.paged_get, JiraClient.list_issues,
  ConfluenceClient.list_spaces/list_pages/list_comments);
* the manager orchestration (ConnectorManager.run_probe, _require) and the
  connector cursor handling (JiraConnector.containers/items/comments with
  CPython int() string conversion).
-/

/-- A JSON-like value, the payload currency of the connector layer.
Mirrors the Python dict/list/str/num/bool/None values the mapping layer
manipulates. -/
inductive JVal where
  | null
  | bool (b : Bool)
  | num (n : Int)
  | str (s : String)
  | arr (xs : List JVal)
  | obj (fields : List (String × JVal))

namespace JVal

/-- Python isinstance(v, dict). -/
def isObj : JVal → Bool
  | .obj _ => true
  | _ => false

/-- Python isinstance(v, str). -/
def isStr : JVal → Bool
  | .str _ => true
  | _ => false

end JVal

/-- First-match lookup in an object field list (Python dict keys are unique,
so first match is the match). -/
def lookupField : List (String × JVal) → String → Option JVal
  | [], _ => none
  | (k, v) :: rest, key => if k = key then some v else lookupField rest key

/-- Python truthiness of a JSON value: None, False, 0, empty string, empty
list and empty dict are falsy. -/
def truthy : JVal → Bool
  | .null => false
  | .bool b => b
  | .num n => n != 0
  | .str s => !s.isEmpty
  | .arr xs => !xs.isEmpty
  | .obj fs => !fs.isEmpty

/-- Python x or y (for JSON values): y when x is falsy, else x. -/
def pyOr (a b : JVal) : JVal := if truthy a then a else b

/-- Errors a mapping function can raise: attribute access on a non-dict. -/
inductive MapErr where
  | attributeError

/-- Python v.get(k): returns the stored value (None when the key is absent);
raises AttributeError when v is not a dict. -/
def pyGet (v : JVal) (k : String) : Except MapErr JVal :=
  match v with
  | .obj fs => .ok ((lookupField fs k).getD .null)
  | _ => .error .attributeError

/-- Python v.get(k, default): like pyGet but with an explicit default for an
absent key. -/
def pyGetD (v : JVal) (k : String) (dflt : JVal) : Except MapErr JVal :=
  match v with
  | .obj fs => .ok ((lookupField fs k).getD dflt)
  | _ => .error .attributeError

/-- Python k in v for a dict v (key containment). -/
def hasKey (v : JVal) (k : String) : Bool :=
  match v with
  | .obj fs => (lookupField fs k).isSome
  | _ => false

namespace Jira

/-- Embeds map_project_to_container from src/connectors/jira/mapping.py. -/
def map_project_to_container (project : JVal) : Except MapErr JVal := do
  let key ← pyGet project "key"
  let idv ← pyGet project "id"
  let name ← pyGet project "name"
  let ptk ← pyGet project "projectTypeKey"
  let lead ← pyGet project "lead"
  let leadName ← pyGet (pyOr lead (.obj [])) "displayName"
  pure (.obj [
    ("id", pyOr key idv),
    ("label", name),
    ("type", .str "project"),
    ("meta", .obj [("projectTypeKey", ptk), ("lead", leadName)])])

/-- Embeds map_issue_to_item from src/connectors/jira/mapping.py. -/
def map_issue_to_item (issue : JVal) : Except MapErr JVal := do
  let fields ← pyGetD issue "fields" (.obj [])
  let proj0 ← pyGet fields "project"
  let proj := pyOr proj0 (.obj [])
  let idv ← pyGet issue "id"
  let key ← pyGet issue "key"
  let summary ← pyGet fields "summary"
  let projKey ← pyGet proj "key"
  let projId ← pyGet proj "id"
  let status0 ← pyGet fields "status"
  let statusName ← pyGet (pyOr status0 (.obj [])) "name"
  let assignee0 ← pyGet fields "assignee"
  let assigneeName ← pyGet (pyOr assignee0 (.obj [])) "displayName"
  let reporter0 ← pyGet fields "reporter"
  let reporterName ← pyGet (pyOr reporter0 (.obj [])) "displayName"
  let created ← pyGet fields "created"
  let updated ← pyGet fields "updated"
  pure (.obj [
    ("id", pyOr idv key),
    ("name", summary),
    ("containerId", pyOr projKey projId),
    ("meta", .obj [
      ("status", statusName),
      ("assignee", assigneeName),
      ("reporter", reporterName),
      ("created", created),
      ("updated", updated),
      ("key", key)])])

/-- Embeds map_comment_to_unified from src/connectors/jira/mapping.py.
When the body is a dict containing a content key (Atlassian Document
Format), the code takes body.get(content) or the empty string; otherwise the
body value itself is used as the text. -/
def map_comment_to_unified (comment : JVal) : Except MapErr JVal := do
  let author0 ← pyGet comment "author"
  let author := pyOr author0 (.obj [])
  let body ← pyGet comment "body"
  let text ← if body.isObj && hasKey body "content" then do
      let content ← pyGet body "content"
      pure (pyOr content (.str ""))
    else pure body
  let idv ← pyGet comment "id"
  let authorName ← pyGet author "displayName"
  let created ← pyGet comment "created"
  let updated ← pyGet comment "updated"
  pure (.obj [
    ("id", idv),
    ("author", authorName),
    ("text", text),
    ("created", created),
    ("updated", updated)])

end Jira

namespace Confluence

/-- Embeds map_space_to_container from src/connectors/confluence/mapping.py. -/
def map_space_to_container (space : JVal) : Except MapErr JVal := do
  let key ← pyGet space "key"
  let idv ← pyGet space "id"
  let name ← pyGet space "name"
  let typ ← pyGet space "type"
  let status ← pyGet space "status"
  pure (.obj [
    ("id", pyOr key idv),
    ("label", name),
    ("type", .str "space"),
    ("meta", .obj [("type", typ), ("status", status)])])

/-- Embeds map_page_to_item from src/connectors/confluence/mapping.py. -/
def map_page_to_item (page : JVal) : Except MapErr JVal := do
  let space0 ← pyGet page "space"
  let space := pyOr space0 (.obj [])
  let idv ← pyGet page "id"
  let title ← pyGet page "title"
  let spaceKey ← pyGet space "key"
  let spaceId ← pyGet space "id"
  let status ← pyGet page "status"
  let parent0 ← pyGet page "parent"
  let parentId ← pyGet (pyOr parent0 (.obj [])) "id"
  let createdAt ← pyGet page "createdAt"
  let version0 ← pyGet page "version"
  let versionNum ← pyGet (pyOr version0 (.obj [])) "number"
  pure (.obj [
    ("id", idv),
    ("name", title),
    ("containerId", pyOr spaceKey spaceId),
    ("meta", .obj [
      ("status", status),
      ("parentId", parentId),
      ("createdAt", createdAt),
      ("version", versionNum)])])

/-- Embeds map_comment_to_unified from src/connectors/confluence/mapping.py.
The text is (body or empty-dict).get(storage, empty-dict).get(value) when the
body is a dict, else the body value untouched. -/
def map_comment_to_unified (comment : JVal) : Except MapErr JVal := do
  let author0 ← pyGet comment "createdBy"
  let author := pyOr author0 (.obj [])
  let body ← pyGet comment "body"
  let text ← if body.isObj then do
      let storage ← pyGetD (pyOr body (.obj [])) "storage" (.obj [])
      pyGet storage "value"
    else pure body
  let idv ← pyGet comment "id"
  let dispName ← pyGet author "displayName"
  let plainName ← pyGet author "name"
  let createdAt ← pyGet comment "createdAt"
  let updatedAt ← pyGet comment "updatedAt"
  pure (.obj [
    ("id", idv),
    ("author", pyOr dispName plainName),
    ("text", text),
    ("created", createdAt),
    ("updated", updatedAt)])

end Confluence

/-- One HTTP response as seen by the retry loop: its status code and the
parsed Retry-After header (none when the header is absent or empty, in which
case the code falls back to 0.0). -/
structure HttpResp where
  status : Nat
  retryAfter : Option ℚ
  body : String

/-- One attempt through httpx either times out or produces a response. -/
inductive AttemptOutcome where
  | timeout
  | response (r : HttpResp)

/-- The transient statuses retried by both clients: 429, 500, 502, 503, 504. -/
def transientStatuses : List Nat := [429, 500, 502, 503, 504]

/-- resp.status_code in (429, 500, 502, 503, 504). -/
def isTransient (s : Nat) : Bool := transientStatuses.contains s

/-- Embeds JiraClient._sleep_delay (and the inlined Confluence version):
backoff_factor * 2 ** (attempt - 1) plus random.random() * 0.25, the random
draw modelled as a per-attempt jitter value. -/
def sleep_delay (backoff : ℚ) (jit : Nat → ℚ) (attempt : Nat) : ℚ :=
  backoff * 2 ^ (attempt - 1) + jit attempt

/-- float(resp.headers.get(Retry-After, 0) or 0.0): the parsed header value,
0 when absent. -/
def retryAfterValue (r : HttpResp) : ℚ := r.retryAfter.getD 0

/-- The sleep before retrying a transient response:
max(retry_after, _sleep_delay(attempt)). -/
def transient_sleep (backoff : ℚ) (jit : Nat → ℚ) (r : HttpResp) (attempt : Nat) : ℚ :=
  max (retryAfterValue r) (sleep_delay backoff jit attempt)

/-- Terminal outcome of the request loop: a returned response (any
non-transient status, including 4xx), raise_for_status after the retry
budget is exhausted on a transient status, or a re-raised timeout. -/
inductive ReqResult where
  | ok (r : HttpResp)
  | statusError (r : HttpResp)
  | timeoutError

/-- Embeds the while-loop body of JiraClient._request and
ConfluenceClient._request, carrying the current attempt number (starting at
1) and returning the terminal result together with the list of sleeps
performed, in order. On timeout: re-raise once attempt > max_retries, else
sleep _sleep_delay(attempt) and continue. On a transient status:
raise_for_status once attempt > max_retries, else sleep
max(retry_after, _sleep_delay(attempt)) and continue. Any other response is
returned. -/
def request_loop (maxRetries : Nat) (backoff : ℚ) (jit : Nat → ℚ)
    (out : Nat → AttemptOutcome) (attempt : Nat) : ReqResult × List ℚ :=
  match out attempt with
  | .timeout =>
    if h : maxRetries < attempt then (.timeoutError, [])
    else
      let rest := request_loop maxRetries backoff jit out (attempt + 1)
      (rest.1, sleep_delay backoff jit attempt :: rest.2)
  | .response r =>
    if isTransient r.status then
      if h : maxRetries < attempt then (.statusError r, [])
      else
        let rest := request_loop maxRetries backoff jit out (attempt + 1)
        (rest.1, transient_sleep backoff jit r attempt :: rest.2)
    else (.ok r, [])
termination_by maxRetries + 1 - attempt
decreasing_by all_goals omega

/-- JiraClient._request / ConfluenceClient._request: the loop entered with
attempt = 1 (the Python counter is incremented at the top of the loop). -/
def client_request (maxRetries : Nat) (backoff : ℚ) (jit : Nat → ℚ)
    (out : Nat → AttemptOutcome) : ReqResult × List ℚ :=
  request_loop maxRetries backoff jit out 1

/-- Python truthiness of an optional string (None and the empty string are
falsy). -/
def optTruthy : Option String → Bool
  | none => false
  | some s => !s.isEmpty

/-- Python truthiness of an optional float (None and 0.0 are falsy). -/
def optRatTruthy : Option ℚ → Bool
  | none => false
  | some e => e != 0

/-- The mutable auth state of JiraAuth / ConfluenceAuth that token refresh
reads and writes: auth method, access token, refresh token and the recorded
expiry epoch (the private _access_token_exp / _exp attribute). -/
structure AuthState where
  method : String
  access_token : Option String
  refresh_token : Option String
  exp : Option ℚ

/-- The token endpoint response the refresh POST yields: HTTP status, the
access_token and expires_in fields of the JSON payload, and the raw body. -/
structure TokenResp where
  status : Nat
  access_token : Option String
  expires_in : Option Int
  body : String

/-- Embeds JiraAuth.set_token / ConfluenceAuth.set_token at time now: the
access token is stored unconditionally; when expires_in is truthy the expiry
becomes now + max(0, expires_in - 30) (refresh 30 seconds early). -/
def set_token (st : AuthState) (now : ℚ) (token : Option String)
    (expires_in : Option Int) : AuthState :=
  { st with
    access_token := token,
    exp := match expires_in with
      | some e => if e ≠ 0 then some (now + max 0 ((e : ℚ) - 30)) else st.exp
      | none => st.exp }

/-- The guard self.access_token and self._access_token_exp and
time.time() < self._access_token_exp, with Python float truthiness on the
recorded expiry. -/
def tokenFresh (st : AuthState) (now : ℚ) : Bool :=
  optTruthy st.access_token && optRatTruthy st.exp &&
    decide (now < st.exp.getD 0)

/-- Result of one refresh_if_needed call: no HTTP call made and state
untouched, or the POST was made and either raised (token refresh failed) or
stored the new token. -/
inductive RefreshOutcome where
  | noop
  | failed (status : Nat) (body : String)
  | refreshed (st : AuthState)

/-- Embeds JiraAuth.refresh_if_needed: no-op unless the method is oauth2;
no-op when the held token is fresh or no refresh token is configured;
otherwise POST the refresh_token grant, raise_for_status when the status is
>= 400 (propagating status and body), else store the payload token via
set_token. -/
def jira_refresh_if_needed (st : AuthState) (now : ℚ) (resp : TokenResp) :
    RefreshOutcome :=
  if st.method ≠ "oauth2" then .noop
  else if tokenFresh st now then .noop
  else if !optTruthy st.refresh_token then .noop
  else if 400 ≤ resp.status then .failed resp.status resp.body
  else .refreshed (set_token st now resp.access_token resp.expires_in)

/-- Embeds ConfluenceAuth.refresh_if_needed: identical guards, but the POST
response goes through an unconditional raise_for_status, which raises for
every status outside 200..299. -/
def confluence_refresh_if_needed (st : AuthState) (now : ℚ) (resp : TokenResp) :
    RefreshOutcome :=
  if st.method ≠ "oauth2" then .noop
  else if tokenFresh st now then .noop
  else if !optTruthy st.refresh_token then .noop
  else if resp.status < 200 ∨ 300 ≤ resp.status then .failed resp.status resp.body
  else .refreshed (set_token st now resp.access_token resp.expires_in)

/-- One page of a Jira paged response as read by JiraClient.paged_get:
whether the payload carries an issues key, the optional startAt, total and
isLast fields, and how many items came back. -/
structure JiraPageResp where
  hasIssuesKey : Bool
  startAt : Option Int
  total : Option Int
  isLastFlag : Option Bool
  itemCount : Nat

/-- Embeds the next-start computation of one JiraClient.paged_get iteration.
With an issues key: is_last is startAt + item count >= total (total
defaulting to startAt + item count). Otherwise: is_last is the isLast flag
(defaulting to False) or item count < maxResults. next_start is None when
is_last, else startAt + item count. -/
def paged_get_next (resp : JiraPageResp) (paramStart : Int) (pageSize : Nat) :
    Option Int :=
  let start := resp.startAt.getD paramStart
  if resp.hasIssuesKey then
    let total := resp.total.getD (start + resp.itemCount)
    if total ≤ start + resp.itemCount then none else some (start + resp.itemCount)
  else
    let is_last := resp.isLastFlag.getD false || decide (resp.itemCount < pageSize)
    if is_last then none else some (start + resp.itemCount)

/-- Embeds the next-cursor computation of JiraClient.list_issues (and
list_comments): next is None when startAt + item count >= total (total
defaulting to startAt + item count), else startAt + item count. -/
def list_issues_next (startAt : Option Int) (total : Option Int)
    (itemCount : Nat) (paramStart : Int) : Option Int :=
  let start := startAt.getD paramStart
  let tot := total.getD (start + itemCount)
  if tot ≤ start + itemCount then none else some (start + itemCount)

/-- str(next_cursor) if next_cursor is not None else None. -/
def cursorString (c : Option Int) : Option String := c.map toString

/-- The formula the specification states for offset-style pagination:
isLast is the explicit flag OR item count < page size OR
startAt + item count >= total; nextCursor is null when isLast, else the
stringified next offset. Written from the words of the spec for comparison
with paged_get_next. -/
def spec_offset_next (startAt : Int) (pageSize : Nat) (total : Int)
    (isLastFlag : Option Bool) (itemCount : Nat) : Option String :=
  if isLastFlag.getD false || decide (itemCount < pageSize) ||
      decide (total ≤ startAt + itemCount) then none
  else some (toString (startAt + itemCount))

/-- One Confluence list response as read by
ConfluenceClient.list_spaces/list_pages/list_comments: the results list and
the _links object when present. -/
structure ConfluencePageResp where
  results : List JVal
  links : Option (List (String × JVal))

/-- Embeds the next-cursor extraction shared by list_spaces, list_pages and
list_comments: data[_links][next] when _links is present and carries a next
key, else None. -/
def confluence_next_cursor (links : Option (List (String × JVal))) :
    Option JVal :=
  match links with
  | some lfs =>
    match lookupField lfs "next" with
    | some v => some v
    | none => none
  | none => none

/-- ConfluenceClient.list_spaces result shape: the results items plus the
extracted next cursor. -/
def list_spaces_result (resp : ConfluencePageResp) : List JVal × Option JVal :=
  (resp.results, confluence_next_cursor resp.links)

/-- ConfluenceClient.list_pages result shape. -/
def list_pages_result (resp : ConfluencePageResp) : List JVal × Option JVal :=
  (resp.results, confluence_next_cursor resp.links)

/-- ConfluenceClient.list_comments result shape. -/
def list_comments_result (resp : ConfluencePageResp) : List JVal × Option JVal :=
  (resp.results, confluence_next_cursor resp.links)

/-- A registered connector as the manager sees it: its validate and probe
operations, each of which may raise (modelled as Except with a string
message) or succeed. -/
structure Connector where
  validate : JVal → Except String Unit
  probe : JVal → Except String JVal

/-- Registry lookup (ConnectorRegistry.get): the dict is an association list
keyed by connector_id. -/
def registry_get : List (String × Connector) → String → Option Connector
  | [], _ => none
  | (k, c) :: rest, id => if k = id then some c else registry_get rest id

/-- The calls run_probe makes on the connector, in order. -/
inductive ProbeCall where
  | validateCall
  | probeCall

/-- Failure of run_probe: the ValueError raised by _require for an unknown
identifier, or an exception propagated from validate or probe. -/
inductive RunProbeError where
  | notFound (id : String)
  | raised (e : String)

/-- Embeds ConnectorManager.run_probe with ConnectorManager._require: look
the connector up (raising not-found when absent, before anything else), then
await validate(config), then await probe(config), propagating either
failure; the trace records which connector calls were made. -/
def run_probe (reg : List (String × Connector)) (id : String) (cfg : JVal) :
    Except RunProbeError JVal × List ProbeCall :=
  match registry_get reg id with
  | none => (.error (.notFound id), [])
  | some c =>
    match c.validate cfg with
    | .error e => (.error (.raised e), [.validateCall])
    | .ok _ =>
      match c.probe cfg with
      | .error e => (.error (.raised e), [.validateCall, .probeCall])
      | .ok m => (.ok m, [.validateCall, .probeCall])

/-- The code points CPython int() effectively strips from a string
argument. CPython first maps the string through
_PyUnicode_TransformDecimalAndSpaceToASCII, which leaves every code point
below 127 untouched and turns Py_UNICODE_ISSPACE code points at or above
127 (NEL 85, NBSP A0, and the Unicode line/paragraph/space separators)
into an ASCII space; _PyLong_FromString then strips only Py_ISSPACE, the
ASCII whitespace 09-0D and 20. The information separators 1C-1F are
therefore never stripped even though str.isspace holds of them: they pass
the transform unchanged (below 127) and Py_ISSPACE rejects them, so
int(FS followed by 5) raises ValueError on every path. -/
def pyWhitespaceCodes : List Nat :=
  [0x09, 0x0A, 0x0B, 0x0C, 0x0D, 0x20,
   0x85, 0xA0, 0x1680,
   0x2000, 0x2001, 0x2002, 0x2003, 0x2004, 0x2005, 0x2006, 0x2007,
   0x2008, 0x2009, 0x200A, 0x2028, 0x2029, 0x202F, 0x205F, 0x3000]

/-- Whether CPython int() treats the character as strippable whitespace. -/
def isPyWS (c : Char) : Bool := pyWhitespaceCodes.contains c.toNat

/-- First code points of the Unicode decimal-digit (category Nd) runs, each
run being ten consecutive code points with values 0-9: ASCII 0030,
Arabic-Indic 0660, Extended Arabic-Indic 06F0, NKo 07C0, Devanagari 0966,
Bengali 09E6, Gurmukhi 0A66, Gujarati 0AE6, Oriya 0B66, Tamil 0BE6, Telugu
0C66, Kannada 0CE6, Malayalam 0D66, Sinhala 0DE6, Thai 0E50, Lao 0ED0,
Tibetan 0F20, Myanmar 1040 and 1090, Khmer 17E0, Mongolian 1810, Limbu
1946, New Tai Lue 19D0, Tai Tham 1A80 and 1A90, Balinese 1B50, Sundanese
1BB0, Lepcha 1C40, Ol Chiki 1C50, Vai A620, Saurashtra A8D0, Kayah Li
A900, Javanese A9D0, Tai Laing A9F0, Cham AA50, Meetei Mayek ABF0,
fullwidth FF10, Osmanya 104A0, Hanifi Rohingya 10D30, Brahmi 11066, Sora
Sompeng 110F0, Chakma 11136, Sharada 111D0, Khudawadi 112F0, Newa 11450,
Tirhuta 114D0, Modi 11650, Takri 116C0, Ahom 11730, Warang Citi 118E0,
Dives Akuru 11950, Bhaiksuki 11C50, Masaram Gondi 11D50, Gunjala Gondi
11DA0, Kawi 11F50, Mro 16A60, Tangsa 16AC0, Pahawh Hmong 16B50, the five
mathematical digit runs from 1D7CE, Nyiakeng Puachue Hmong 1E140, Wancho
1E2F0, Nag Mundari 1E4F0, Adlam 1E950, and segmented digits 1FBF0
(Unicode 15, as shipped with current CPython; these are the characters
whose Py_UNICODE_TODECIMAL is nonnegative). -/
def decimalDigitBases : List Nat :=
  [0x30, 0x660, 0x6F0, 0x7C0, 0x966, 0x9E6, 0xA66, 0xAE6, 0xB66, 0xBE6,
   0xC66, 0xCE6, 0xD66, 0xDE6, 0xE50, 0xED0, 0xF20, 0x1040, 0x1090,
   0x17E0, 0x1810, 0x1946, 0x19D0, 0x1A80, 0x1A90, 0x1B50, 0x1BB0,
   0x1C40, 0x1C50, 0xA620, 0xA8D0, 0xA900, 0xA9D0, 0xA9F0, 0xAA50,
   0xABF0, 0xFF10, 0x104A0, 0x10D30, 0x11066, 0x110F0, 0x11136, 0x111D0,
   0x112F0, 0x11450, 0x114D0, 0x11650, 0x116C0, 0x11730, 0x118E0,
   0x11950, 0x11C50, 0x11D50, 0x11DA0, 0x11F50, 0x16A60, 0x16AC0,
   0x16B50, 0x1D7CE, 0x1D7D8, 0x1D7E2, 0x1D7EC, 0x1D7F6, 0x1E140,
   0x1E2F0, 0x1E4F0, 0x1E950, 0x1FBF0]

/-- Py_UNICODE_TODECIMAL: the decimal value of a Unicode decimal digit,
none for every other character. -/
def pyDecimalValue (c : Char) : Option Nat :=
  (decimalDigitBases.find? (fun b => b ≤ c.toNat && c.toNat ≤ b + 9)).map
    (fun b => c.toNat - b)

/-- Digit run of a CPython base-10 int() argument after the first digit:
Unicode decimal digits, with single underscores allowed only between
digits. Accumulates the value; none on a malformed run. -/
def pyDigits : List Char → Nat → Option Nat
  | [], acc => some acc
  | c :: cs, acc =>
    match pyDecimalValue c with
    | some d => pyDigits cs (10 * acc + d)
    | none =>
      if c = '_' then
        match cs with
        | [] => none
        | d :: ds =>
          match pyDecimalValue d with
          | some dv => pyDigits ds (10 * acc + dv)
          | none => none
      else none

/-- Embeds CPython int(s): strip the surrounding whitespace int()
effectively strips (pyWhitespaceCodes), allow one ASCII sign, then a
non-empty run of Unicode decimal digits with single underscores between
digits; none models the ValueError int() raises otherwise. (Interior
whitespace still fails: the digit run stops at it and the string has not
been consumed, matching the transformed ASCII parse.) -/
def pyIntOfString (s : String) : Option Int :=
  let cs := ((s.toList.dropWhile isPyWS).reverse.dropWhile isPyWS).reverse
  match cs with
  | [] => none
  | c :: rest =>
    let signed : Int × List Char :=
      if c = '-' then (-1, rest) else if c = '+' then (1, rest) else (1, c :: rest)
    match signed.2 with
    | [] => none
    | d :: ds =>
      match pyDecimalValue d with
      | some _ => (pyDigits (d :: ds) 0).map (fun n => signed.1 * n)
      | none => none

/-- Spot checks of the int() embedding against the interpreter: the
information separator 1C is never stripped (neither in an all-ASCII string
nor next to Unicode digits), Arabic-Indic, fullwidth and mathematical
digits parse, underscores are allowed singly between digits only,
surrounding ASCII and ideographic whitespace strips, and interior
whitespace, zero-width space or a fullwidth sign fail. -/
theorem pyIntOfString_spot_checks :
    pyIntOfString "\x1c5" = none ∧
    pyIntOfString "\x1c١٢" = none ∧
    pyIntOfString "١٢" = some 12 ∧
    pyIntOfString "-٤٢" = some (-42) ∧
    pyIntOfString "１２" = some 12 ∧
    pyIntOfString "𝟗9" = some 99 ∧
    pyIntOfString " 42\u3000" = some 42 ∧
    pyIntOfString "\x0b٣" = some 3 ∧
    pyIntOfString "4_2" = some 42 ∧
    pyIntOfString "4__2" = none ∧
    pyIntOfString "_4" = none ∧
    pyIntOfString "4 2" = none ∧
    pyIntOfString "\u200b42" = none ∧
    pyIntOfString "＋42" = none ∧
    pyIntOfString "abc" = none := by
  decide

/-- Errors the connector listing operations can surface. -/
inductive ConnErr where
  | invalidConfig
  | valueError

/-- int(cursor) if cursor else 0, as JiraConnector.containers/items/comments
compute the start offset: a falsy cursor (absent or empty) gives 0, anything
else goes through int() and surfaces ValueError when unparsable. -/
def parse_cursor_start (cursor : Option String) : Except ConnErr Int :=
  if optTruthy cursor then
    match pyIntOfString (cursor.getD "") with
    | some n => .ok n
    | none => .error .valueError
  else .ok 0

/-- Embeds the control flow of JiraConnector.containers: validate the config
(model_validate raises on an invalid config), compute the start offset from
the cursor, and only then drive the HTTP request loop through the client.
The second component counts the HTTP attempts performed (one per loop
iteration: sleeps + the final attempt). -/
def jira_connector_containers (configValid : Bool) (cursor : Option String)
    (maxRetries : Nat) (backoff : ℚ) (jit : Nat → ℚ)
    (out : Nat → AttemptOutcome) : Except ConnErr ReqResult × Nat :=
  if !configValid then (.error .invalidConfig, 0)
  else
    match parse_cursor_start cursor with
    | .error e => (.error e, 0)
    | .ok _start =>
      let res := client_request maxRetries backoff jit out
      (.ok res.1, res.2.length + 1)

/-- Embeds the control flow of JiraConnector.items (same cursor handling in
front of list_issues). -/
def jira_connector_items (configValid : Bool) (cursor : Option String)
    (maxRetries : Nat) (backoff : ℚ) (jit : Nat → ℚ)
    (out : Nat → AttemptOutcome) : Except ConnErr ReqResult × Nat :=
  if !configValid then (.error .invalidConfig, 0)
  else
    match parse_cursor_start cursor with
    | .error e => (.error e, 0)
    | .ok _start =>
      let res := client_request maxRetries backoff jit out
      (.ok res.1, res.2.length + 1)

/-- Embeds the control flow of JiraConnector.comments (same cursor handling
in front of list_comments). -/
def jira_connector_comments (configValid : Bool) (cursor : Option String)
    (maxRetries : Nat) (backoff : ℚ) (jit : Nat → ℚ)
    (out : Nat → AttemptOutcome) : Except ConnErr ReqResult × Nat :=
  if !configValid then (.error .invalidConfig, 0)
  else
    match parse_cursor_start cursor with
    | .error e => (.error e, 0)
    | .ok _start =>
      let res := client_request maxRetries backoff jit out
      (.ok res.1, res.2.length + 1)

/-- A field is absent, or its value is falsy (e.g. null), or it is an
object: exactly the shapes the defensive (x or empty-dict).get chains
tolerate. -/
def fieldObjIfTruthy (fs : List (String × JVal)) (k : String) : Bool :=
  match lookupField fs k with
  | some v => !truthy v || v.isObj
  | none => true

/-- Well-formed Jira project payload: a dict whose optional lead, when
present and truthy, is an object. -/
def wfProject (p : JVal) : Bool :=
  match p with
  | .obj fs => fieldObjIfTruthy fs "lead"
  | _ => false

/-- Well-formed Jira issue payload: a dict whose fields entry (defaulting to
an empty dict) is a dict, in which project, status, assignee and reporter
are objects whenever present and truthy. -/
def wfIssue (issue : JVal) : Bool :=
  match issue with
  | .obj fs =>
    match (lookupField fs "fields").getD (.obj []) with
    | .obj ffs =>
      fieldObjIfTruthy ffs "project" && fieldObjIfTruthy ffs "status" &&
        fieldObjIfTruthy ffs "assignee" && fieldObjIfTruthy ffs "reporter"
    | _ => false
  | _ => false

/-- Well-formed Jira comment payload: a dict whose author, when present and
truthy, is an object (the body may be any value). -/
def wfJiraComment (c : JVal) : Bool :=
  match c with
  | .obj fs => fieldObjIfTruthy fs "author"
  | _ => false

/-- Well-formed Confluence space payload: any dict. -/
def wfSpace (s : JVal) : Bool := s.isObj

/-- Well-formed Confluence page payload: a dict whose space, parent and
version, when present and truthy, are objects. -/
def wfPage (p : JVal) : Bool :=
  match p with
  | .obj fs =>
    fieldObjIfTruthy fs "space" && fieldObjIfTruthy fs "parent" &&
      fieldObjIfTruthy fs "version"
  | _ => false

/-- Well-formed Confluence comment payload: a dict whose createdBy, when
present and truthy, is an object, and whose body, when it is a dict with a
storage entry, has an object there. -/
def wfConfComment (c : JVal) : Bool :=
  match c with
  | .obj fs =>
    fieldObjIfTruthy fs "createdBy" &&
      (match lookupField fs "body" with
       | some (.obj bfs) =>
         match lookupField bfs "storage" with
         | some st => st.isObj
         | none => true
       | _ => true)
  | _ => false

theorem fieldObjIfTruthy_spec (fs : List (String × JVal)) (k : String)
    (h : fieldObjIfTruthy fs k = true) :
    truthy ((lookupField fs k).getD .null) = true →
    ((lookupField fs k).getD .null).isObj = true := by
  unfold fieldObjIfTruthy at h
  rcases hl : lookupField fs k with _ | v
  · simp [hl, truthy]
  · rw [hl] at h
    simp only [Option.getD_some, hl]
    intro ht
    rw [Bool.or_eq_true] at h
    rcases h with h1 | h1
    · rw [ht] at h1; simp at h1
    · exact h1

theorem pyGet_pyOr_obj (v : JVal) (k : String)
    (h : truthy v = true → v.isObj = true) :
    ∃ x, pyGet (pyOr v (.obj [])) k = .ok x := by
  unfold pyOr
  by_cases ht : truthy v = true
  · have hobj := h ht
    rcases v with _ | b | n | s | xs | fs
    all_goals simp_all [JVal.isObj]
    exact ⟨_, rfl⟩
  · rw [Bool.not_eq_true] at ht
    rw [ht]
    exact ⟨_, rfl⟩

@[simp] theorem except_bind_ok {ε α β : Type} (a : α) (f : α → Except ε β) :
    (Except.ok a : Except ε α) >>= f = f a := rfl

@[simp] theorem except_bind_error {ε α β : Type} (e : ε) (f : α → Except ε β) :
    (Except.error e : Except ε α) >>= f = .error e := rfl

@[simp] theorem except_pure {ε α : Type} (a : α) :
    (pure a : Except ε α) = .ok a := rfl

@[simp] theorem pyGet_obj (fs : List (String × JVal)) (k : String) :
    pyGet (.obj fs) k = .ok ((lookupField fs k).getD .null) := rfl

@[simp] theorem pyGetD_obj (fs : List (String × JVal)) (k : String) (d : JVal) :
    pyGetD (.obj fs) k d = .ok ((lookupField fs k).getD d) := rfl

def exceptIsOk {ε α : Type} : Except ε α → Bool
  | .ok _ => true
  | .error _ => false

@[simp] theorem exceptIsOk_ok {ε α : Type} (a : α) :
    exceptIsOk (.ok a : Except ε α) = true := rfl

@[simp] theorem exceptIsOk_error {ε α : Type} (e : ε) :
    exceptIsOk (.error e : Except ε α) = false := rfl

theorem exists_ok_of_isOk {ε α : Type} (x : Except ε α)
    (h : exceptIsOk x = true) : ∃ a, x = .ok a := by
  cases x
  · simp [exceptIsOk] at h
  · exact ⟨_, rfl⟩

theorem map_project_total (p : JVal) (h : wfProject p = true) :
    ∃ r, Jira.map_project_to_container p = .ok r := by
  apply exists_ok_of_isOk
  rcases p with _ | b | n | s | xs | fs
  case obj =>
    simp only [wfProject] at h
    obtain ⟨x, hx⟩ := pyGet_pyOr_obj _ "displayName" (fieldObjIfTruthy_spec fs "lead" h)
    simp [Jira.map_project_to_container, hx]
  all_goals simp [wfProject] at h

theorem map_issue_total (p : JVal) (h : wfIssue p = true) :
    ∃ r, Jira.map_issue_to_item p = .ok r := by
  apply exists_ok_of_isOk
  rcases p with _ | b | n | s | xs | fs
  case obj =>
    simp only [wfIssue] at h
    rcases hff : (lookupField fs "fields").getD (.obj []) with _ | b | n | s | xs | ffs
    all_goals rw [hff] at h
    case obj =>
      simp only [Bool.and_eq_true] at h
      obtain ⟨⟨⟨hproj, hstat⟩, hassg⟩, hrep⟩ := h
      obtain ⟨x1, hx1⟩ := pyGet_pyOr_obj _ "key" (fieldObjIfTruthy_spec ffs "project" hproj)
      obtain ⟨x2, hx2⟩ := pyGet_pyOr_obj _ "id" (fieldObjIfTruthy_spec ffs "project" hproj)
      obtain ⟨x3, hx3⟩ := pyGet_pyOr_obj _ "name" (fieldObjIfTruthy_spec ffs "status" hstat)
      obtain ⟨x4, hx4⟩ :=
        pyGet_pyOr_obj _ "displayName" (fieldObjIfTruthy_spec ffs "assignee" hassg)
      obtain ⟨x5, hx5⟩ :=
        pyGet_pyOr_obj _ "displayName" (fieldObjIfTruthy_spec ffs "reporter" hrep)
      simp [Jira.map_issue_to_item, hff, hx1, hx2, hx3, hx4, hx5]
    all_goals simp at h
  all_goals simp [wfIssue] at h

@[simp] theorem pyOr_obj_nil (b : JVal) : pyOr (.obj []) b = b := rfl

@[simp] theorem pyOr_obj_cons (f : String × JVal) (rest : List (String × JVal))
    (b : JVal) : pyOr (.obj (f :: rest)) b = .obj (f :: rest) := rfl

theorem map_jira_comment_total (p : JVal) (h : wfJiraComment p = true) :
    ∃ r, Jira.map_comment_to_unified p = .ok r := by
  apply exists_ok_of_isOk
  rcases p with _ | b | n | s | xs | fs
  case obj =>
    simp only [wfJiraComment] at h
    obtain ⟨x, hx⟩ := pyGet_pyOr_obj _ "displayName" (fieldObjIfTruthy_spec fs "author" h)
    rcases hb : (lookupField fs "body").getD .null with _ | b | n | s | xs | bfs
    case obj =>
      rcases hc : lookupField bfs "content" with _ | c
      all_goals simp [Jira.map_comment_to_unified, hb, hc, hasKey, JVal.isObj, hx]
    all_goals simp [Jira.map_comment_to_unified, hb, hasKey, JVal.isObj, hx]
  all_goals simp [wfJiraComment] at h

theorem map_space_total (p : JVal) (h : wfSpace p = true) :
    ∃ r, Confluence.map_space_to_container p = .ok r := by
  apply exists_ok_of_isOk
  rcases p with _ | b | n | s | xs | fs
  case obj => simp [Confluence.map_space_to_container]
  all_goals simp [wfSpace, JVal.isObj] at h

theorem map_page_total (p : JVal) (h : wfPage p = true) :
    ∃ r, Confluence.map_page_to_item p = .ok r := by
  apply exists_ok_of_isOk
  rcases p with _ | b | n | s | xs | fs
  case obj =>
    simp only [wfPage, Bool.and_eq_true] at h
    obtain ⟨⟨hsp, hpar⟩, hver⟩ := h
    obtain ⟨x1, hx1⟩ := pyGet_pyOr_obj _ "key" (fieldObjIfTruthy_spec fs "space" hsp)
    obtain ⟨x2, hx2⟩ := pyGet_pyOr_obj _ "id" (fieldObjIfTruthy_spec fs "space" hsp)
    obtain ⟨x3, hx3⟩ := pyGet_pyOr_obj _ "id" (fieldObjIfTruthy_spec fs "parent" hpar)
    obtain ⟨x4, hx4⟩ := pyGet_pyOr_obj _ "number" (fieldObjIfTruthy_spec fs "version" hver)
    simp [Confluence.map_page_to_item, hx1, hx2, hx3, hx4]
  all_goals simp [wfPage] at h

theorem map_conf_comment_total (p : JVal) (h : wfConfComment p = true) :
    ∃ r, Confluence.map_comment_to_unified p = .ok r := by
  apply exists_ok_of_isOk
  rcases p with _ | b | n | s | xs | fs
  case obj =>
    simp only [wfConfComment, Bool.and_eq_true] at h
    obtain ⟨hauth, hbody⟩ := h
    obtain ⟨x, hx⟩ :=
      pyGet_pyOr_obj _ "displayName" (fieldObjIfTruthy_spec fs "createdBy" hauth)
    obtain ⟨y, hy⟩ := pyGet_pyOr_obj _ "name" (fieldObjIfTruthy_spec fs "createdBy" hauth)
    rcases hb : lookupField fs "body" with _ | bv
    · simp [Confluence.map_comment_to_unified, hb, JVal.isObj, hx, hy]
    · rw [hb] at hbody
      rcases bv with _ | b | n | s | xs | bfs
      case obj =>
        rcases bfs with _ | ⟨f, rest⟩
        · simp [Confluence.map_comment_to_unified, hb, JVal.isObj, lookupField, hx, hy]
        · rcases hst : lookupField (f :: rest) "storage" with _ | st
          · simp [Confluence.map_comment_to_unified, hb, hst, JVal.isObj, hx, hy]
          · simp only [hst] at hbody
            rcases st with _ | b2 | n2 | s2 | xs2 | stfs
            all_goals simp [JVal.isObj] at hbody
            simp [Confluence.map_comment_to_unified, hb, hst, JVal.isObj, hx, hy]
      all_goals simp [Confluence.map_comment_to_unified, hb, JVal.isObj, hx, hy]
  all_goals simp [wfConfComment] at h

theorem request_loop_all_transient (mr : Nat) (b : ℚ) (jit : Nat → ℚ)
    (out : Nat → AttemptOutcome)
    (h : ∀ n, ∃ r, out n = .response r ∧ isTransient r.status = true) :
    ∀ d attempt, attempt + d = mr + 1 →
      ∃ r, out (mr + 1) = .response r ∧
        (request_loop mr b jit out attempt).1 = .statusError r ∧
        (request_loop mr b jit out attempt).2.length = d := by
  intro d
  induction d with
  | zero =>
    intro attempt ha
    have hae : attempt = mr + 1 := by omega
    subst hae
    obtain ⟨r, hr, htr⟩ := h (mr + 1)
    refine ⟨r, hr, ?_, ?_⟩
    · rw [request_loop, hr]
      simp [htr, Nat.lt_succ_self]
    · rw [request_loop, hr]
      simp [htr, Nat.lt_succ_self]
  | succ d ih =>
    intro attempt ha
    obtain ⟨r0, hr0, htr0⟩ := h attempt
    obtain ⟨r, hr, h1, h2⟩ := ih (attempt + 1) (by omega)
    have hle : ¬ mr < attempt := by omega
    refine ⟨r, hr, ?_, ?_⟩
    · rw [request_loop, hr0]
      simp [htr0, hle, h1]
    · rw [request_loop, hr0]
      simp [htr0, hle, h2]

theorem request_loop_all_timeout (mr : Nat) (b : ℚ) (jit : Nat → ℚ)
    (out : Nat → AttemptOutcome) (h : ∀ n, out n = .timeout) :
    ∀ d attempt, attempt + d = mr + 1 →
      (request_loop mr b jit out attempt).1 = .timeoutError ∧
      (request_loop mr b jit out attempt).2.length = d := by
  intro d
  induction d with
  | zero =>
    intro attempt ha
    have hae : attempt = mr + 1 := by omega
    subst hae
    rw [request_loop, h (mr + 1)]
    simp [Nat.lt_succ_self]
  | succ d ih =>
    intro attempt ha
    obtain ⟨h1, h2⟩ := ih (attempt + 1) (by omega)
    have hle : ¬ mr < attempt := by omega
    constructor
    · rw [request_loop, h attempt]
      simp [hle, h1]
    · rw [request_loop, h attempt]
      simp [hle, h2]

theorem request_loop_nontransient (mr : Nat) (b : ℚ) (jit : Nat → ℚ)
    (out : Nat → AttemptOutcome) (attempt : Nat) (r : HttpResp)
    (hr : out attempt = .response r) (htr : isTransient r.status = false) :
    request_loop mr b jit out attempt = (.ok r, []) := by
  rw [request_loop, hr]
  simp [htr]

/-- C1: through the provider request loop, when every attempt yields a
transient status (429/500/502/503/504) the client performs max_retries
retries (max_retries + 1 total attempts, 5 with the default max_retries = 4)
and then surfaces the final response via raise_for_status; when every
attempt times out it likewise retries max_retries times then re-raises the
timeout; and a first response with a non-transient 4xx status other than
429 (e.g. 400) is returned immediately with no retry. -/
theorem C1_retry_policy (mr : Nat) (b : ℚ) (jit : Nat → ℚ) :
    (∀ out : Nat → AttemptOutcome,
      (∀ n, ∃ r, out n = .response r ∧ isTransient r.status = true) →
      ∃ r, out (mr + 1) = .response r ∧
        (client_request mr b jit out).1 = .statusError r ∧
        (client_request mr b jit out).2.length = mr) ∧
    (∀ out : Nat → AttemptOutcome, (∀ n, out n = .timeout) →
      (client_request mr b jit out).1 = .timeoutError ∧
      (client_request mr b jit out).2.length = mr) ∧
    (∀ (out : Nat → AttemptOutcome) (r : HttpResp),
      out 1 = .response r → 400 ≤ r.status → r.status < 500 → r.status ≠ 429 →
      client_request mr b jit out = (.ok r, [])) := by
  refine ⟨?_, ?_, ?_⟩
  · intro out h
    exact request_loop_all_transient mr b jit out h mr 1 (by omega)
  · intro out h
    exact request_loop_all_timeout mr b jit out h mr 1 (by omega)
  · intro out r hr h4 h5 h429
    apply request_loop_nontransient mr b jit out 1 r hr
    rcases hh : isTransient r.status with _ | _
    · rfl
    · exfalso
      simp [isTransient, transientStatuses] at hh
      omega

/-- Witness for C1 at the default max_retries = 4: five timing-out attempts
end in the re-raised timeout after 4 retries. -/
theorem C1_retry_policy_witness :
    (client_request 4 (1/2 : ℚ) (fun _ => 0) (fun _ => AttemptOutcome.timeout)).1 =
        ReqResult.timeoutError ∧
    (client_request 4 (1/2 : ℚ) (fun _ => 0) (fun _ => AttemptOutcome.timeout)).2.length = 4 :=
  (C1_retry_policy 4 (1/2) (fun _ => 0)).2.1 (fun _ => AttemptOutcome.timeout) (fun _ => rfl)

/-- C2: with nonnegative backoff factor and per-attempt jitter in [0, 1/4),
the sleep before retry attempt n with no Retry-After header lies in
[backoff * 2 ^ (n - 1), backoff * 2 ^ (n - 1) + 1/4) (both for the
transient-status path, where the absent header reads as 0, and for the
timeout path which sleeps _sleep_delay directly); and for a 429 or 503
response carrying Retry-After ra the sleep is exactly
max ra (backoff * 2 ^ (n - 1) + jitter). -/
theorem C2_backoff_bounds (b : ℚ) (jit : Nat → ℚ) (hb : 0 ≤ b)
    (hj : ∀ n, 0 ≤ jit n ∧ jit n < 1/4) :
    (∀ (n : Nat) (r : HttpResp), r.retryAfter = none →
      b * 2 ^ (n - 1) ≤ transient_sleep b jit r n ∧
        transient_sleep b jit r n < b * 2 ^ (n - 1) + 1/4) ∧
    (∀ n : Nat, b * 2 ^ (n - 1) ≤ sleep_delay b jit n ∧
        sleep_delay b jit n < b * 2 ^ (n - 1) + 1/4) ∧
    (∀ (n : Nat) (r : HttpResp) (ra : ℚ), r.retryAfter = some ra →
      (r.status = 429 ∨ r.status = 503) →
      transient_sleep b jit r n = max ra (b * 2 ^ (n - 1) + jit n)) := by
  have hbase : ∀ n : Nat, (0 : ℚ) ≤ b * 2 ^ (n - 1) := by
    intro n
    positivity
  have hdelay : ∀ n : Nat, b * 2 ^ (n - 1) ≤ sleep_delay b jit n ∧
      sleep_delay b jit n < b * 2 ^ (n - 1) + 1/4 := by
    intro n
    unfold sleep_delay
    constructor
    · linarith [(hj n).1]
    · linarith [(hj n).2]
  refine ⟨?_, hdelay, ?_⟩
  · intro n r hra
    have h0 : (0 : ℚ) ≤ sleep_delay b jit n := by
      have := (hdelay n).1
      linarith [hbase n]
    have : transient_sleep b jit r n = sleep_delay b jit n := by
      unfold transient_sleep retryAfterValue
      rw [hra]
      simpa using max_eq_right h0
    rw [this]
    exact hdelay n
  · intro n r ra hra _
    unfold transient_sleep retryAfterValue sleep_delay
    rw [hra]
    simp

/-- Witness for C2 with the default backoff factor 1/2 and zero jitter:
attempt 1 with no Retry-After sleeps exactly within [1/2, 3/4). -/
theorem C2_backoff_bounds_witness :
    (1/2 : ℚ) * 2 ^ (1 - 1) ≤ transient_sleep (1/2) (fun _ => 0) ⟨503, none, ""⟩ 1 ∧
    transient_sleep (1/2) (fun _ => 0) ⟨503, none, ""⟩ 1 <
      (1/2 : ℚ) * 2 ^ (1 - 1) + 1/4 :=
  (C2_backoff_bounds (1/2) (fun _ => 0) (by norm_num)
    (fun n => by norm_num)).1 1 ⟨503, none, ""⟩ rfl

/-- Counterexample to C3 as stated: with an expired token and a refresh
token configured, a 302 (non-2xx) token-endpoint response does not make the
Jira strategy fail; the guard is status >= 400, so the redirect falls
through to the success path and the (absent) payload token is stored. -/
def c3State : AuthState :=
  { method := "oauth2", access_token := some "old",
    refresh_token := some "r", exp := some 10 }

def c3Resp : TokenResp :=
  { status := 302, access_token := none, expires_in := none, body := "redirect" }

theorem C3_counterexample :
    jira_refresh_if_needed c3State 100 c3Resp =
      .refreshed { c3State with access_token := none } ∧
    ¬(200 ≤ c3Resp.status ∧ c3Resp.status < 300) := by
  constructor
  · rfl
  · decide

/-- C3 amended: for an oauth2 strategy, refresh_if_needed is a no-op when
the held token is fresh (30-second-early expiry) or no refresh token is
configured; otherwise it POSTs and fails with the propagated status/body on
any response with status >= 400 (the Confluence strategy also fails on
1xx/3xx); on a 2xx response both store the new token, whose recorded expiry
is now + max 0 (expires_in - 30). -/
theorem C3_refresh_if_needed (st : AuthState) (now : ℚ) (resp : TokenResp)
    (hm : st.method = "oauth2") :
    (tokenFresh st now = true ∨ optTruthy st.refresh_token = false →
      jira_refresh_if_needed st now resp = .noop ∧
      confluence_refresh_if_needed st now resp = .noop) ∧
    (tokenFresh st now = false → optTruthy st.refresh_token = true →
      (400 ≤ resp.status →
        jira_refresh_if_needed st now resp = .failed resp.status resp.body ∧
        confluence_refresh_if_needed st now resp = .failed resp.status resp.body) ∧
      (resp.status < 200 ∨ 300 ≤ resp.status →
        confluence_refresh_if_needed st now resp = .failed resp.status resp.body) ∧
      (200 ≤ resp.status → resp.status < 300 →
        jira_refresh_if_needed st now resp =
          .refreshed (set_token st now resp.access_token resp.expires_in) ∧
        confluence_refresh_if_needed st now resp =
          .refreshed (set_token st now resp.access_token resp.expires_in))) ∧
    (∀ (t : String) (e : Int), e ≠ 0 →
      (set_token st now (some t) (some e)).access_token = some t ∧
      (set_token st now (some t) (some e)).exp = some (now + max 0 ((e : ℚ) - 30))) := by
  refine ⟨?_, ?_, ?_⟩
  · rintro (h | h) <;>
      simp [jira_refresh_if_needed, confluence_refresh_if_needed, hm, h]
  · intro hf hr
    refine ⟨?_, ?_, ?_⟩
    · intro h4
      constructor
      · simp [jira_refresh_if_needed, hm, hf, hr, h4]
      · have h23 : resp.status < 200 ∨ 300 ≤ resp.status := by omega
        simp [confluence_refresh_if_needed, hm, hf, hr, h23]
    · intro h23
      simp [confluence_refresh_if_needed, hm, hf, hr, h23]
    · intro h2 h3
      have h4 : ¬ 400 ≤ resp.status := by omega
      have h23 : ¬ (resp.status < 200 ∨ 300 ≤ resp.status) := by omega
      constructor <;>
        simp [jira_refresh_if_needed, confluence_refresh_if_needed, hm, hf, hr, h4, h23]
  · intro t e he
    simp [set_token, he]

/-- Witness for C3: a 400 token-endpoint response with an expired state
fails for both strategies with the propagated status and body. -/
theorem C3_refresh_if_needed_witness :
    jira_refresh_if_needed
        { method := "oauth2", access_token := none, refresh_token := some "r", exp := none }
        0 { status := 400, access_token := none, expires_in := none, body := "bad" } =
      .failed 400 "bad" ∧
    confluence_refresh_if_needed
        { method := "oauth2", access_token := none, refresh_token := some "r", exp := none }
        0 { status := 400, access_token := none, expires_in := none, body := "bad" } =
      .failed 400 "bad" :=
  ((C3_refresh_if_needed
      { method := "oauth2", access_token := none, refresh_token := some "r", exp := none }
      0 { status := 400, access_token := none, expires_in := none, body := "bad" }
      rfl).2.1 rfl rfl).1 (by norm_num)

def c4ValuesPage : JiraPageResp :=
  { hasIssuesKey := false, startAt := some 0, total := some 10,
    isLastFlag := none, itemCount := 50 }

def c4IssuesPage : JiraPageResp :=
  { hasIssuesKey := true, startAt := some 0, total := some 100,
    isLastFlag := none, itemCount := 10 }

/-- Counterexample to C4 as stated: the three-way isLast disjunction does
not describe the code. A values-style page with startAt 0, total 10 and 50
items of page size 50 satisfies startAt + itemCount >= total, so the spec
formula yields null, yet paged_get ignores total on that branch and yields
next offset 50; an issues-style page with 10 items of page size 50 and
total 100 has itemCount < pageSize, so the spec formula yields null, yet
paged_get ignores the page size on that branch and yields next offset 10. -/
theorem C4_counterexample :
    cursorString (paged_get_next c4ValuesPage 0 50) = some "50" ∧
    spec_offset_next 0 50 10 none 50 = none ∧
    cursorString (paged_get_next c4IssuesPage 0 50) = some "10" ∧
    spec_offset_next 0 50 100 none 10 = none := ⟨rfl, rfl, rfl, rfl⟩

/-- C4 amended: for issues-style responses isLast is
startAt + itemCount >= total (the flag and the page size are not
consulted); for values-style responses isLast is the explicit flag or
itemCount < page size (total is not consulted); the next cursor is null
when isLast and the stringified startAt + itemCount otherwise. Both spec
examples hold under either branch and under list_issues. -/
theorem C4_offset_pagination (paramStart startAtv totalv : Int)
    (flag : Option Bool) (count pageSize : Nat) :
    (paged_get_next
        { hasIssuesKey := true, startAt := some startAtv, total := some totalv,
          isLastFlag := flag, itemCount := count } paramStart pageSize =
      if totalv ≤ startAtv + count then none else some (startAtv + count)) ∧
    (paged_get_next
        { hasIssuesKey := false, startAt := some startAtv, total := some totalv,
          isLastFlag := flag, itemCount := count } paramStart pageSize =
      if flag.getD false || decide (count < pageSize) then none
      else some (startAtv + count)) ∧
    (list_issues_next (some startAtv) (some totalv) count paramStart =
      if totalv ≤ startAtv + count then none else some (startAtv + count)) ∧
    cursorString (paged_get_next
      { hasIssuesKey := false, startAt := some 0, total := some 120,
        isLastFlag := none, itemCount := 50 } 0 50) = some "50" ∧
    cursorString (paged_get_next
      { hasIssuesKey := true, startAt := some 0, total := some 120,
        isLastFlag := none, itemCount := 50 } 0 50) = some "50" ∧
    cursorString (paged_get_next
      { hasIssuesKey := false, startAt := some 100, total := some 120,
        isLastFlag := none, itemCount := 20 } 100 50) = none ∧
    cursorString (paged_get_next
      { hasIssuesKey := true, startAt := some 100, total := some 120,
        isLastFlag := none, itemCount := 20 } 100 50) = none ∧
    cursorString (list_issues_next (some 0) (some 120) 50 0) = some "50" ∧
    cursorString (list_issues_next (some 100) (some 120) 20 100) = none := by
  refine ⟨?_, ?_, ?_, rfl, rfl, rfl, rfl, rfl, rfl⟩
  · simp [paged_get_next]
  · simp [paged_get_next]
  · simp [list_issues_next]

/-- C5: for every Confluence list response, all three listing endpoints
return the provider cursor stored under the next key of the _links metadata
when it is present, and null when _links is absent or carries no next
key. -/
theorem C5_cursor_pagination (resp : ConfluencePageResp) :
    (∀ lfs v, resp.links = some lfs → lookupField lfs "next" = some v →
      (list_spaces_result resp).2 = some v ∧
      (list_pages_result resp).2 = some v ∧
      (list_comments_result resp).2 = some v) ∧
    (resp.links = none →
      (list_spaces_result resp).2 = none ∧
      (list_pages_result resp).2 = none ∧
      (list_comments_result resp).2 = none) ∧
    (∀ lfs, resp.links = some lfs → lookupField lfs "next" = none →
      (list_spaces_result resp).2 = none ∧
      (list_pages_result resp).2 = none ∧
      (list_comments_result resp).2 = none) := by
  refine ⟨?_, ?_, ?_⟩ <;> intros <;>
    simp_all [list_spaces_result, list_pages_result, list_comments_result,
      confluence_next_cursor]

/-- Witness for C5: a response whose _links carries next extracts that
cursor on all three endpoints. -/
theorem C5_cursor_pagination_witness :
    (list_spaces_result ⟨[], some [("next", JVal.str "cur")]⟩).2 =
        some (JVal.str "cur") ∧
    (list_pages_result ⟨[], some [("next", JVal.str "cur")]⟩).2 =
        some (JVal.str "cur") ∧
    (list_comments_result ⟨[], some [("next", JVal.str "cur")]⟩).2 =
        some (JVal.str "cur") :=
  (C5_cursor_pagination ⟨[], some [("next", JVal.str "cur")]⟩).1
    [("next", JVal.str "cur")] (JVal.str "cur") rfl rfl

/-- C6: every mapping function is total over well-formed provider payloads
(optional nested objects absent, null or falsy never raise), and on the
fully-minimal payload (an empty dict) every missing optional field maps to
null. -/
theorem C6_mapping_total :
    (∀ p, wfProject p = true → ∃ r, Jira.map_project_to_container p = .ok r) ∧
    (∀ p, wfIssue p = true → ∃ r, Jira.map_issue_to_item p = .ok r) ∧
    (∀ p, wfJiraComment p = true → ∃ r, Jira.map_comment_to_unified p = .ok r) ∧
    (∀ p, wfSpace p = true → ∃ r, Confluence.map_space_to_container p = .ok r) ∧
    (∀ p, wfPage p = true → ∃ r, Confluence.map_page_to_item p = .ok r) ∧
    (∀ p, wfConfComment p = true → ∃ r, Confluence.map_comment_to_unified p = .ok r) ∧
    Jira.map_project_to_container (.obj []) =
      .ok (.obj [("id", .null), ("label", .null), ("type", .str "project"),
        ("meta", .obj [("projectTypeKey", .null), ("lead", .null)])]) ∧
    Jira.map_issue_to_item (.obj []) =
      .ok (.obj [("id", .null), ("name", .null), ("containerId", .null),
        ("meta", .obj [("status", .null), ("assignee", .null), ("reporter", .null),
          ("created", .null), ("updated", .null), ("key", .null)])]) ∧
    Jira.map_comment_to_unified (.obj []) =
      .ok (.obj [("id", .null), ("author", .null), ("text", .null),
        ("created", .null), ("updated", .null)]) ∧
    Confluence.map_space_to_container (.obj []) =
      .ok (.obj [("id", .null), ("label", .null), ("type", .str "space"),
        ("meta", .obj [("type", .null), ("status", .null)])]) ∧
    Confluence.map_page_to_item (.obj []) =
      .ok (.obj [("id", .null), ("name", .null), ("containerId", .null),
        ("meta", .obj [("status", .null), ("parentId", .null), ("createdAt", .null),
          ("version", .null)])]) ∧
    Confluence.map_comment_to_unified (.obj []) =
      .ok (.obj [("id", .null), ("author", .null), ("text", .null),
        ("created", .null), ("updated", .null)]) :=
  ⟨map_project_total, map_issue_total, map_jira_comment_total, map_space_total,
    map_page_total, map_conf_comment_total, rfl, rfl, rfl, rfl, rfl, rfl⟩

/-- Witness for C6: the empty-dict issue payload is well-formed and maps
without raising. -/
theorem C6_mapping_total_witness :
    ∃ r, Jira.map_issue_to_item (JVal.obj []) = .ok r :=
  C6_mapping_total.2.1 (JVal.obj []) rfl

def jiraAdfComment : JVal :=
  .obj [("id", .str "1"),
    ("body", .obj [("content", .arr [.obj [("type", .str "paragraph")]])])]

/-- Counterexample to C7 as stated: a Jira comment whose body is an
Atlassian-Document-Format envelope (a dict with a content key holding a
node list) maps its text to that raw list, not to a contained plain
string. -/
theorem C7_counterexample :
    Jira.map_comment_to_unified jiraAdfComment =
      .ok (.obj [("id", .str "1"), ("author", .null),
        ("text", .arr [.obj [("type", .str "paragraph")]]),
        ("created", .null), ("updated", .null)]) ∧
    JVal.isStr (.arr [.obj [("type", .str "paragraph")]]) = false := ⟨rfl, rfl⟩

/-- A comment payload whose body is the given value. -/
def commentWithBody (b : JVal) : JVal := .obj [("id", .str "c1"), ("body", b)]

/-- Extract the text field from a successful mapping result. -/
def textOf : Except MapErr JVal → Option JVal
  | .ok (.obj fs) => lookupField fs "text"
  | _ => none

/-- C7 amended: the Confluence mapping unwraps a storage envelope to its
contained plain string and passes a plain string body through unchanged
(in particular the storage wrapper containing the string of the spec
example maps to exactly that string); the Jira mapping passes a plain
string body through unchanged, but maps a body object with a content key to
the raw content value (empty string when falsy), which is a plain string
only when that value is itself a string. -/
theorem C7_text_extraction :
    (∀ s : String, textOf (Confluence.map_comment_to_unified
      (commentWithBody (.obj [("storage", .obj [("value", .str s)])]))) =
        some (.str s)) ∧
    (∀ s : String, textOf (Confluence.map_comment_to_unified
      (commentWithBody (.str s))) = some (.str s)) ∧
    (∀ s : String, textOf (Jira.map_comment_to_unified
      (commentWithBody (.str s))) = some (.str s)) ∧
    (∀ c : JVal, textOf (Jira.map_comment_to_unified
      (commentWithBody (.obj [("content", c)]))) = some (pyOr c (.str ""))) ∧
    textOf (Confluence.map_comment_to_unified
      (commentWithBody (.obj [("storage", .obj [("value", .str "<p>Hi</p>")])]))) =
      some (.str "<p>Hi</p>") :=
  ⟨fun _ => rfl, fun _ => rfl, fun _ => rfl, fun _ => rfl, rfl⟩

def c8Issue : JVal :=
  .obj [("id", .str "I-1"), ("key", .str "PRJ-1"),
    ("fields", .obj [("summary", .str "Fix bug"),
      ("project", .obj [("key", .str "PRJ")]),
      ("status", .obj [("name", .str "To Do")])])]

/-- C8: the spec reference example — the minimal Jira issue payload maps to
id I-1, name Fix bug, containerId PRJ, with meta status To Do and key
PRJ-1 (absent optionals null). -/
theorem C8_issue_mapping_example :
    Jira.map_issue_to_item c8Issue =
      .ok (.obj [("id", .str "I-1"), ("name", .str "Fix bug"),
        ("containerId", .str "PRJ"),
        ("meta", .obj [("status", .str "To Do"), ("assignee", .null),
          ("reporter", .null), ("created", .null), ("updated", .null),
          ("key", .str "PRJ-1")])]) := rfl

/-- C9: run_probe on an unregistered identifier fails with not-found before
any validate or probe call; on a registered connector it calls validate
first, propagates a validate failure without calling probe, and otherwise
calls probe and propagates its outcome unchanged. -/
theorem C9_run_probe (reg : List (String × Connector)) (id : String) (cfg : JVal) :
    (registry_get reg id = none →
      run_probe reg id cfg = (.error (.notFound id), [])) ∧
    (∀ c, registry_get reg id = some c →
      (∀ e, c.validate cfg = .error e →
        run_probe reg id cfg = (.error (.raised e), [.validateCall])) ∧
      (∀ u, c.validate cfg = .ok u →
        (∀ e, c.probe cfg = .error e →
          run_probe reg id cfg = (.error (.raised e), [.validateCall, .probeCall])) ∧
        (∀ m, c.probe cfg = .ok m →
          run_probe reg id cfg = (.ok m, [.validateCall, .probeCall])))) := by
  refine ⟨?_, ?_⟩
  · intro h
    simp [run_probe, h]
  · intro c hc
    refine ⟨?_, ?_⟩
    · intro e he
      simp [run_probe, hc, he]
    · intro u hu
      refine ⟨?_, ?_⟩
      · intro e he
        simp [run_probe, hc, hu, he]
      · intro m hm
        simp [run_probe, hc, hu, hm]

/-- Witness for C9: the empty registry yields not-found with no connector
calls. -/
theorem C9_run_probe_witness :
    run_probe [] "jira" (JVal.obj []) =
      (.error (.notFound "jira"), []) :=
  (C9_run_probe [] "jira" (JVal.obj [])).1 rfl

/-- C10: with a valid config, a non-empty cursor that CPython int() cannot
parse (int() modelled with its Unicode decimal-digit and whitespace
handling) makes containers, items and comments surface ValueError with
zero HTTP attempts performed. -/
theorem C10_nonnumeric_cursor (cursor : String) (hne : cursor.isEmpty = false)
    (hp : pyIntOfString cursor = none)
    (mr : Nat) (b : ℚ) (jit : Nat → ℚ) (out : Nat → AttemptOutcome) :
    jira_connector_containers true (some cursor) mr b jit out =
      (.error .valueError, 0) ∧
    jira_connector_items true (some cursor) mr b jit out =
      (.error .valueError, 0) ∧
    jira_connector_comments true (some cursor) mr b jit out =
      (.error .valueError, 0) := by
  have hpc : parse_cursor_start (some cursor) = .error .valueError := by
    simp [parse_cursor_start, optTruthy, hne, hp]
  refine ⟨?_, ?_, ?_⟩ <;>
    simp [jira_connector_containers, jira_connector_items,
      jira_connector_comments, hpc]

/-- Witness for C10: an opaque cursor string is rejected with no HTTP
attempts. -/
theorem C10_nonnumeric_cursor_witness :
    jira_connector_containers true (some "abc") 4 (1/2) (fun _ => 0)
        (fun _ => AttemptOutcome.timeout) = (.error .valueError, 0) ∧
    jira_connector_items true (some "abc") 4 (1/2) (fun _ => 0)
        (fun _ => AttemptOutcome.timeout) = (.error .valueError, 0) ∧
    jira_connector_comments true (some "abc") 4 (1/2) (fun _ => 0)
        (fun _ => AttemptOutcome.timeout) = (.error .valueError, 0) :=
  C10_nonnumeric_cursor "abc" rfl rfl 4 (1/2) (fun _ => 0)
    (fun _ => AttemptOutcome.timeout)
